import Mathlib

/-!
Verification of the monus task-orchestration pipeline.

This file gives a shallow embedding of the core of the monus repository
(task classifier, project planner, sandbox workspace, and the websocket
code-generation orchestrator) and proves the frozen claims about it.

Modelling conventions:
- The external language-model client is an oracle parameter: a value of an
  Option type (none models a network error, a thrown exception, or a
  response that fails JSON parsing) or a function producing the streamed
  chunks for a file.
- JavaScript strings are Lean Strings; case-insensitive substring matching
  (String.prototype.includes over toLowerCase) is embedded over character
  lists, with Char.toLower modelling the ASCII case folding relevant to the
  keyword sets.
- JavaScript numbers used by the progress computation are embedded as
  exact naturals: Math.floor of the quotient ((i+1)/total)*80 is Nat
  division (i+1)*80/total, which agrees with the double computation for
  every realizable plan size.
- The filesystem is a map from project name to a directory, where a
  directory is an association list from relative path to content.
-/

namespace Monus

/-! ## String utilities (JS String.prototype.includes / toLowerCase) -/

/-- Decide whether the first character list is a leading segment of the second. -/
def charsLead : List Char → List Char → Bool
  | [], _ => true
  | _ :: _, [] => false
  | a :: as, b :: bs => a = b && charsLead as bs

/-- Decide whether the first character list occurs contiguously inside the second.
Embeds JavaScript String.prototype.includes. -/
def containsSub : List Char → List Char → Bool
  | needle, [] => needle.isEmpty
  | needle, b :: rest => charsLead needle (b :: rest) || containsSub needle rest

/-- Lower-cased character list of a string: embeds s.toLowerCase() for the
ASCII letters that the keyword sets rely on. -/
def lowerChars (s : String) : List Char := s.data.map Char.toLower

/-- Substring test used by the classifier: kw.toLowerCase() occurring in the
lower-cased goal. -/
def includesKw (goalLower : List Char) (kw : String) : Bool :=
  containsSub (lowerChars kw) goalLower

/-! ## Core types (src/node/packages/core/src/types/index.ts) -/

/-- TaskType from types/index.ts. -/
inductive TaskType
  | research
  | code
deriving DecidableEq, Repr

/-- ProjectTemplate from types/index.ts. -/
inductive ProjectTemplate
  | html
  | viteReact
  | viteVue
  | node
  | python
deriving DecidableEq, Repr

/-- TaskClassification record; confidence is embedded as a rational. -/
structure TaskClassification where
  type : TaskType
  template : Option ProjectTemplate
  confidence : ℚ
  reason : String
deriving DecidableEq, Repr

/-- FileSpec from types/index.ts. -/
structure FileSpec where
  path : String
  description : String
deriving DecidableEq, Repr

/-- ProjectStep from types/index.ts. -/
structure ProjectStep where
  step : Nat
  action : String
  file : String
  description : String
deriving DecidableEq, Repr

/-- ProjectPlan from types/index.ts. -/
structure ProjectPlan where
  projectName : String
  description : String
  files : List FileSpec
  steps : List ProjectStep
deriving DecidableEq, Repr

/-! ## Planner.classifyTask (src/node/packages/core/src/agents/coder.ts, Planner) -/

/-- Code-related keyword set from Planner.classifyTask. -/
def codeKeywords : List String :=
  ["做一個", "寫一個", "開發", "實作", "建立", "創建", "遊戲", "網站",
   "app", "應用", "程式", "功能",
   "make", "build", "create", "develop", "implement",
   "game", "website", "application", "program"]

/-- Research-related keyword set from Planner.classifyTask. -/
def researchKeywords : List String :=
  ["研究", "分析", "比較", "什麼是", "介紹", "說明", "教學", "原理",
   "報告", "彙整", "推薦", "整理",
   "research", "analyze", "compare", "explain", "tutorial", "overview",
   "how does", "what is"]

/-- Count of keywords whose lower-cased form occurs in the lower-cased goal. -/
def keywordScore (keywords : List String) (goalLower : List Char) : Nat :=
  (keywords.filter (includesKw goalLower)).length

/-- codeScore of a goal, as computed by Planner.classifyTask. -/
def codeScoreOf (goal : String) : Nat := keywordScore codeKeywords (lowerChars goal)

/-- researchScore of a goal, as computed by Planner.classifyTask. -/
def researchScoreOf (goal : String) : Nat := keywordScore researchKeywords (lowerChars goal)

/-- Template selection from Planner.classifyTask: fixed priority of secondary
keyword checks over the lower-cased goal. -/
def pickTemplate (goalLower : List Char) : ProjectTemplate :=
  if ["react", "元件", "component"].any (fun kw => containsSub kw.data goalLower) then
    ProjectTemplate.viteReact
  else if ["vue"].any (fun kw => containsSub kw.data goalLower) then
    ProjectTemplate.viteVue
  else if ["python", "爬蟲", "腳本", "script"].any (fun kw => containsSub kw.data goalLower) then
    ProjectTemplate.python
  else if ["node", "後端", "api", "server"].any (fun kw => containsSub kw.data goalLower) then
    ProjectTemplate.node
  else
    ProjectTemplate.html

/-- Parsed JSON answer of the LLM fallback classification; an oracle value of
none models a thrown or unparsable model response. -/
structure LLMClassAnswer where
  type : TaskType
  template : Option ProjectTemplate
  reason : String
deriving DecidableEq, Repr

/-- Planner.llmClassifyTask: wraps the model answer, or falls back to a
low-confidence research classification when the call fails. -/
def llmClassifyTask (oracle : Option LLMClassAnswer) : TaskClassification :=
  match oracle with
  | some r =>
      { type := r.type, template := r.template, confidence := (7 : ℚ) / 10,
        reason := r.reason }
  | none =>
      { type := TaskType.research, template := none, confidence := (1 : ℚ) / 2,
        reason := "Default to research (LLM classification failed)" }

/-- Planner.classifyTask: keyword scoring with the LLM delegate used only when
both scores are zero; the template variable is assigned exactly when the code
score wins and is carried into the code classification. -/
def classifyTask (oracle : Option LLMClassAnswer) (goal : String) : TaskClassification :=
  if codeScoreOf goal = 0 ∧ researchScoreOf goal = 0 then
    llmClassifyTask oracle
  else if researchScoreOf goal < codeScoreOf goal then
    { type := TaskType.code, template := some (pickTemplate (lowerChars goal)),
      confidence := min 1 ((codeScoreOf goal : ℚ) / 3),
      reason := "Detected code-related keywords (score: " ++ toString (codeScoreOf goal)
        ++ " vs " ++ toString (researchScoreOf goal) ++ ")" }
  else
    { type := TaskType.research, template := none,
      confidence := min 1 ((researchScoreOf goal : ℚ) / 3),
      reason := "Detected research-related keywords (score: " ++ toString (researchScoreOf goal)
        ++ " vs " ++ toString (codeScoreOf goal) ++ ")" }

/-! ## Coder.analyzeTask (src/node/packages/core/src/agents/coder.ts, Coder) -/

/-- Shape of the JSON object Coder.analyzeTask asks the model for; an oracle
value of none models chatJSON throwing (invalid JSON or any exception).
An empty projectName models the falsy field handled by the source. -/
structure ParsedPlan where
  projectName : String
  description : String
  files : List FileSpec
  steps : List ProjectStep
deriving DecidableEq, Repr

/-- Coder.analyzeTask: wraps the parsed model plan, or returns the fixed
3-file fallback plan when the call fails. -/
def analyzeTask (goal : String) (template : ProjectTemplate)
    (llmResponse : Option ParsedPlan) : ProjectPlan :=
  match llmResponse with
  | some p =>
      { projectName := if p.projectName = "" then "monus_project" else p.projectName,
        description := p.description, files := p.files, steps := p.steps }
  | none =>
      { projectName := "monus_project",
        description := goal,
        files :=
          [{ path := "index.html", description := "主頁面" },
           { path := "style.css", description := "樣式" },
           { path := "script.js", description := "腳本" }],
        steps :=
          [{ step := 1, action := "create_file", file := "index.html", description := "建立主頁面" },
           { step := 2, action := "create_file", file := "style.css", description := "建立樣式" },
           { step := 3, action := "create_file", file := "script.js", description := "建立腳本" }] }

/-! ## SandboxTool path resolution (src/node/packages/core/src/tools/sandbox.ts)

writeProjectFile computes join(workspaceDir, projectName, filePath) with the
Node path module and performs the write there, with no containment check.
Paths are modelled as lists of segments of an absolute path; join
concatenates the segments of its arguments and normalizes, resolving "."
and ".." the way path.join does on an absolute path. -/

/-- Split a path string at the slash separators, producing its raw segments. -/
def splitSlash : List Char → List Char → List String
  | cur, [] => [String.mk cur.reverse]
  | cur, c :: rest =>
    if c = '/' then String.mk cur.reverse :: splitSlash [] rest
    else splitSlash (c :: cur) rest

/-- Raw segments of a path string. -/
def splitPath (s : String) : List String := splitSlash [] s.data

/-- One normalization step of the Node path module on an absolute path:
empty and "." segments vanish, ".." removes the previous segment. -/
def normStep (acc : List String) (seg : String) : List String :=
  if seg = "" ∨ seg = "." then acc
  else if seg = ".." then acc.dropLast
  else acc ++ [seg]

/-- Normalized segment list of a joined absolute path. -/
def joinSegs (segs : List String) : List String := segs.foldl normStep []

/-- Absolute target of SandboxTool.writeProjectFile: the normalized segments of
join(workspaceDir, projectName, filePath). -/
def writeTargetSegs (workspace : List String) (projectName filePath : String) :
    List String :=
  joinSegs (workspace ++ splitPath projectName ++ splitPath filePath)

/-- Whether a resolved target path lies under workspaceRoot/projectName. -/
def staysInProject (workspace : List String) (projectName : String)
    (target : List String) : Bool :=
  decide (target.take (workspace.length + 1) = workspace ++ [projectName])

/-! ## SandboxTool filesystem model

A directory is an association list from relative file path to content, in
write order; the workspace maps a project name to its directory when it
exists. -/

/-- Directory contents: relative path with file content, in write order. -/
abbrev Dir := List (String × String)

/-- Workspace state: project name to directory, none when the directory does
not exist. -/
abbrev WorkspaceFS := String → Option Dir

/-- Write or overwrite one file inside a directory. -/
def upsertFile (d : Dir) (path content : String) : Dir :=
  if d.any (fun e => e.1 = path) then
    d.map (fun e => if e.1 = path then (path, content) else e)
  else
    d ++ [(path, content)]

/-- rimraf(projectPath): remove the project directory. -/
def rimrafProject (ws : WorkspaceFS) (name : String) : WorkspaceFS :=
  fun n => if n = name then none else ws n

/-- mkdirp(projectPath): create the project directory if absent, keeping an
existing one. -/
def mkdirpProject (ws : WorkspaceFS) (name : String) : WorkspaceFS :=
  fun n => if n = name then some ((ws n).getD []) else ws n

/-- writeFile through the workspace at workspaceRoot/name/path. Models the
in-project write of SandboxTool.writeProjectFile for a relative path
(see writeTargetSegs for the unchecked path resolution the source performs). -/
def writeFileFS (ws : WorkspaceFS) (name path content : String) : WorkspaceFS :=
  fun n => if n = name then some (upsertFile ((ws n).getD []) path content) else ws n

def htmlIndexHtml : String :=
  "<!DOCTYPE html>\n<html lang=\"en\">\n<head>\n    <meta charset=\"UTF-8\">\n    <meta name=\"viewport\" content=\"width=device-width, initial-scale=1.0\">\n    <title>Monus App</title>\n    <link rel=\"stylesheet\" href=\"style.css\">\n</head>\n<body>\n    <div id=\"app\">\n        <h1>Hello Monus!</h1>\n    </div>\n    <script src=\"script.js\"></script>\n</body>\n</html>"

def htmlStyleCss : String :=
  "* \x7b\n    margin: 0;\n    padding: 0;\n    box-sizing: border-box;\n\x7d\n\nbody \x7b\n    font-family: -apple-system, BlinkMacSystemFont, \x27Segoe UI\x27, Roboto, sans-serif;\n    background: linear-gradient(135deg, #1a1a2e 0%, #16213e 100%);\n    color: white;\n    min-height: 100vh;\n    display: flex;\n    justify-content: center;\n    align-items: center;\n\x7d\n\n#app \x7b\n    text-align: center;\n\x7d\n\nh1 \x7b\n    font-size: 3rem;\n    background: linear-gradient(90deg, #00d9ff, #00ff88);\n    -webkit-background-clip: text;\n    -webkit-text-fill-color: transparent;\n\x7d"

def htmlScriptJs : String :=
  "// Monus Generated App\nconsole.log(\x27Monus App Started!\x27);\n\ndocument.addEventListener(\x27DOMContentLoaded\x27, () => \x7b\n    const app = document.getElementById(\x27app\x27);\n    // Your code here\n\x7d);"

def reactPackageJson (name : String) : String :=
  "\x7b\n  \"name\": " ++ "\"" ++ name ++ "\"" ++ ",\n  \"private\": true,\n  \"version\": \"0.0.0\",\n  \"type\": \"module\",\n  \"scripts\": \x7b\n    \"dev\": \"vite\",\n    \"build\": \"vite build\",\n    \"preview\": \"vite preview\"\n  \x7d,\n  \"dependencies\": \x7b\n    \"react\": \"^18.2.0\",\n    \"react-dom\": \"^18.2.0\"\n  \x7d,\n  \"devDependencies\": \x7b\n    \"@vitejs/plugin-react\": \"^4.2.0\",\n    \"vite\": \"^5.0.0\"\n  \x7d\n\x7d"

def reactViteConfig : String :=
  "import \x7b defineConfig \x7d from \x27vite\x27\nimport react from \x27@vitejs/plugin-react\x27\n\nexport default defineConfig(\x7b\n  plugins: [react()],\n\x7d)"

def reactIndexHtml : String :=
  "<!DOCTYPE html>\n<html lang=\"en\">\n  <head>\n    <meta charset=\"UTF-8\" />\n    <meta name=\"viewport\" content=\"width=device-width, initial-scale=1.0\" />\n    <title>Monus App</title>\n  </head>\n  <body>\n    <div id=\"root\"></div>\n    <script type=\"module\" src=\"/src/main.jsx\"></script>\n  </body>\n</html>"

def reactMainJsx : String :=
  "import React from \x27react\x27\nimport ReactDOM from \x27react-dom/client\x27\nimport App from \x27./App.jsx\x27\nimport \x27./index.css\x27\n\nReactDOM.createRoot(document.getElementById(\x27root\x27)).render(\n  <React.StrictMode>\n    <App />\n  </React.StrictMode>,\n)"

def reactAppJsx : String :=
  "import \x7b useState \x7d from \x27react\x27\n\nfunction App() \x7b\n  const [count, setCount] = useState(0)\n\n  return (\n    <div className=\"app\">\n      <h1>Monus App</h1>\n      <div className=\"card\">\n        <button onClick=\x7b() => setCount((count) => count + 1)\x7d>\n          count is \x7bcount\x7d\n        </button>\n      </div>\n    </div>\n  )\n\x7d\n\nexport default App"

def reactIndexCss : String :=
  ":root \x7b\n  font-family: Inter, system-ui, sans-serif;\n  background: #242424;\n  color: rgba(255, 255, 255, 0.87);\n\x7d\n\nbody \x7b\n  margin: 0;\n  min-height: 100vh;\n  display: flex;\n  justify-content: center;\n  align-items: center;\n\x7d\n\n.app \x7b\n  text-align: center;\n\x7d\n\nbutton \x7b\n  padding: 0.6em 1.2em;\n  font-size: 1em;\n  font-weight: 500;\n  background-color: #1a1a1a;\n  border: 1px solid transparent;\n  border-radius: 8px;\n  cursor: pointer;\n  transition: border-color 0.25s;\n\x7d\n\nbutton:hover \x7b\n  border-color: #646cff;\n\x7d"

def vuePackageJson (name : String) : String :=
  "\x7b\n  \"name\": " ++ "\"" ++ name ++ "\"" ++ ",\n  \"private\": true,\n  \"version\": \"0.0.0\",\n  \"type\": \"module\",\n  \"scripts\": \x7b\n    \"dev\": \"vite\",\n    \"build\": \"vite build\",\n    \"preview\": \"vite preview\"\n  \x7d,\n  \"dependencies\": \x7b\n    \"vue\": \"^3.4.0\"\n  \x7d,\n  \"devDependencies\": \x7b\n    \"@vitejs/plugin-vue\": \"^5.0.0\",\n    \"vite\": \"^5.0.0\"\n  \x7d\n\x7d"

def vueViteConfig : String :=
  "import \x7b defineConfig \x7d from \x27vite\x27\nimport vue from \x27@vitejs/plugin-vue\x27\n\nexport default defineConfig(\x7b\n  plugins: [vue()],\n\x7d)"

def vueIndexHtml : String :=
  "<!DOCTYPE html>\n<html lang=\"en\">\n  <head>\n    <meta charset=\"UTF-8\" />\n    <meta name=\"viewport\" content=\"width=device-width, initial-scale=1.0\" />\n    <title>Monus App</title>\n  </head>\n  <body>\n    <div id=\"app\"></div>\n    <script type=\"module\" src=\"/src/main.js\"></script>\n  </body>\n</html>"

def vueMainJs : String :=
  "import \x7b createApp \x7d from \x27vue\x27\nimport App from \x27./App.vue\x27\nimport \x27./style.css\x27\n\ncreateApp(App).mount(\x27#app\x27)"

def vueAppVue : String :=
  "<script setup>\nimport \x7b ref \x7d from \x27vue\x27\n\nconst count = ref(0)\n</script>\n\n<template>\n  <div class=\"app\">\n    <h1>Monus App</h1>\n    <div class=\"card\">\n      <button @click=\"count++\">count is \x7b\x7b count \x7d\x7d</button>\n    </div>\n  </div>\n</template>\n\n<style scoped>\n.app \x7b\n  text-align: center;\n\x7d\n</style>"

def vueStyleCss : String :=
  ":root \x7b\n  font-family: Inter, system-ui, sans-serif;\n  background: #242424;\n  color: rgba(255, 255, 255, 0.87);\n\x7d\n\nbody \x7b\n  margin: 0;\n  min-height: 100vh;\n  display: flex;\n  justify-content: center;\n  align-items: center;\n\x7d\n\nbutton \x7b\n  padding: 0.6em 1.2em;\n  font-size: 1em;\n  font-weight: 500;\n  background-color: #1a1a1a;\n  border: 1px solid transparent;\n  border-radius: 8px;\n  cursor: pointer;\n  transition: border-color 0.25s;\n\x7d\n\nbutton:hover \x7b\n  border-color: #646cff;\n\x7d"

def nodePackageJson (name : String) : String :=
  "\x7b\n  \"name\": " ++ "\"" ++ name ++ "\"" ++ ",\n  \"version\": \"1.0.0\",\n  \"type\": \"module\",\n  \"main\": \"src/index.js\",\n  \"scripts\": \x7b\n    \"start\": \"node src/index.js\",\n    \"dev\": \"node --watch src/index.js\"\n  \x7d\n\x7d"

def nodeIndexJs : String :=
  "// Monus Generated Node.js App\nconsole.log(\x27Hello from Monus!\x27);\n\nasync function main() \x7b\n  // Your code here\n\x7d\n\nmain().catch(console.error);"

def pythonMainPy : String :=
  "\"\"\"\nMonus Generated Python App\n\"\"\"\n\ndef main():\n    print(\"Hello from Monus!\")\n\nif __name__ == \"__main__\":\n    main()"


/-- Boilerplate files written by the per-template init helpers of SandboxTool,
in write order; package.json contents embed the project directory name the
way the source serializes it. -/
def templateFiles (name : String) : ProjectTemplate → Dir
  | ProjectTemplate.html =>
      [("index.html", htmlIndexHtml), ("style.css", htmlStyleCss), ("script.js", htmlScriptJs)]
  | ProjectTemplate.viteReact =>
      [("package.json", reactPackageJson name), ("vite.config.js", reactViteConfig),
       ("index.html", reactIndexHtml), ("src/main.jsx", reactMainJsx),
       ("src/App.jsx", reactAppJsx), ("src/index.css", reactIndexCss)]
  | ProjectTemplate.viteVue =>
      [("package.json", vuePackageJson name), ("vite.config.js", vueViteConfig),
       ("index.html", vueIndexHtml), ("src/main.js", vueMainJs),
       ("src/App.vue", vueAppVue), ("src/style.css", vueStyleCss)]
  | ProjectTemplate.node =>
      [("package.json", nodePackageJson name), ("src/index.js", nodeIndexJs)]
  | ProjectTemplate.python =>
      [("main.py", pythonMainPy), ("requirements.txt", "")]

/-- SandboxTool.initProject: remove an existing project directory, recreate it,
and write the boilerplate of the chosen template into it. -/
def initProject (ws : WorkspaceFS) (name : String) (template : ProjectTemplate) :
    WorkspaceFS :=
  let ws1 := if (ws name).isSome then rimrafProject ws name else ws
  let ws2 := mkdirpProject ws1 name
  (templateFiles name template).foldl (fun w pc => writeFileFS w name pc.1 pc.2) ws2

/-- SandboxTool.writeProjectFile restricted to its in-project effect. -/
def writeProjectFile (ws : WorkspaceFS) (name path content : String) : WorkspaceFS :=
  writeFileFS ws name path content

/-! ## SandboxTool.runCommand -/

/-- CommandResult from sandbox.ts. -/
structure CommandResult where
  success : Bool
  stdout : String
  stderr : String
  code : Int
deriving DecidableEq, Repr

/-- Outcome of the external execAsync(command, options) call: the promise
either resolves with the captured output, or rejects with an error object
carrying an optional numeric code (absent for a timeout kill), optional
captured output, and a message. -/
inductive ExecOutcome
  | completed (stdout stderr : String)
  | failed (code : Option Int) (stdout stderr : Option String) (message : String)
deriving DecidableEq, Repr

/-- SandboxTool.runCommand: a missing project directory, a non-zero exit and a
timeout are all returned as structured failures; nothing is re-thrown. -/
def runCommand (projectExists : Bool) (command : String) (timeoutMs : Nat)
    (outcome : ExecOutcome) : CommandResult :=
  if projectExists = false then
    { success := false, stdout := "", stderr := "Project not found", code := 1 }
  else
    match outcome with
    | ExecOutcome.completed out err =>
        { success := true, stdout := out, stderr := err, code := 0 }
    | ExecOutcome.failed c out err msg =>
        { success := false, stdout := out.getD "", stderr := err.getD msg,
          code := c.getD 1 }

/-! ## Server orchestrator (src/unnamed/part_000)

The websocket handler and runCodeGeneration are embedded as the ordered
list of events they send over the connection. The streaming model call of
Coder.generateFile is an oracle: a function from the target file path and
the accumulated existingFiles map to the finite list of streamed chunks. -/

/-- Outbound protocol events sent over the websocket, with the fields the
claims are about. -/
inductive Event
  | classification (taskType : String)
  | phase (phase : String)
  | progress (progress : Nat)
  | step (step : String) (status : String)
  | projectCreated (projectName : String)
  | fileStart (file : String)
  | fileChunk (file : String) (chunk : String)
  | fileComplete (file : String) (content : String)
  | done (mode : String)
  | error (message : String)
deriving DecidableEq, Repr

/-- Protocol type tag of an event. -/
def eventType : Event → String
  | Event.classification _ => "classification"
  | Event.phase _ => "phase"
  | Event.progress _ => "progress"
  | Event.step _ _ => "step"
  | Event.projectCreated _ => "project_created"
  | Event.fileStart _ => "file_start"
  | Event.fileChunk _ _ => "file_chunk"
  | Event.fileComplete _ _ => "file_complete"
  | Event.done _ => "done"
  | Event.error _ => "error"

/-- File a per-file event is about, none for the other events. -/
def eventPath : Event → Option String
  | Event.fileStart f => some f
  | Event.fileChunk f _ => some f
  | Event.fileComplete f _ => some f
  | _ => none

/-- Whether an event is one of the three per-file event kinds. -/
def isFileEvent : Event → Bool
  | Event.fileStart _ => true
  | Event.fileChunk _ _ => true
  | Event.fileComplete _ _ => true
  | _ => false

/-- Whether an event is file_start for the given file. -/
def isStartFor (f : String) : Event → Bool
  | Event.fileStart g => decide (g = f)
  | _ => false

/-- Whether an event is file_complete for the given file. -/
def isCompleteFor (f : String) : Event → Bool
  | Event.fileComplete g _ => decide (g = f)
  | _ => false

/-- Streaming generation oracle: chunks the model streams for a target file
path given the accumulated existingFiles context. -/
abbrev GenOracle := String → List (String × String) → List String

/-- Events sent for one FileSpec with a non-empty path at loop index j:
file_start, the progress milestone, the running step, one file_chunk per
streamed chunk, then file_complete with the accumulated content and the
done step. -/
def fileBlock (gen : GenOracle) (total j : Nat) (f : FileSpec)
    (acc : List (String × String)) : List Event :=
  let chunks := gen f.path acc
  let content := String.join chunks
  [Event.fileStart f.path,
   Event.progress (10 + ((j + 1) * 80) / total),
   Event.step ("Generating " ++ f.path) "running"]
  ++ chunks.map (Event.fileChunk f.path)
  ++ [Event.fileComplete f.path content,
      Event.step ("Generated " ++ f.path) "done"]

/-- Per-file loop of runCodeGeneration: walks the planned files at their
0-based indices, skipping a FileSpec with an empty path entirely, and
threads the existingFiles map (which records the contents written through
the sandbox). Returns the emitted events and the final existingFiles. -/
def writeLoop (gen : GenOracle) (total : Nat) :
    Nat → List FileSpec → List (String × String) →
    List Event × List (String × String)
  | _, [], acc => ([], acc)
  | j, f :: rest, acc =>
    if f.path = "" then
      writeLoop gen total (j + 1) rest acc
    else
      let content := String.join (gen f.path acc)
      let tail := writeLoop gen total (j + 1) rest (acc ++ [(f.path, content)])
      (fileBlock gen total j f acc ++ tail.1, tail.2)

/-- Event stream of runCodeGeneration for a code session, given the streamed
chunks oracle and the plan produced by Coder.analyzeTask. -/
def runCodeGeneration (gen : GenOracle) (plan : ProjectPlan) : List Event :=
  [Event.phase "planning", Event.progress 5,
   Event.progress 10,
   Event.step ("Creating project: " ++ plan.projectName) "running",
   Event.projectCreated plan.projectName,
   Event.phase "writing"]
  ++ (writeLoop gen plan.files.length 0 plan.files []).1
  ++ [Event.progress 100, Event.phase "complete", Event.done "code"]

/-- Final existingFiles map of the writing loop: one entry per file written
through SandboxTool.writeProjectFile, in write order. -/
def writtenFiles (gen : GenOracle) (plan : ProjectPlan) : List (String × String) :=
  (writeLoop gen plan.files.length 0 plan.files []).2

/-- Expected per-file shape of the stream: for each planned file in order,
skipping empty paths, a file_start, the file_chunk events in streamed
order, then the file_complete carrying the joined content. Threads the
same existingFiles context as the loop. -/
def fileBlocksLoop (gen : GenOracle) :
    List FileSpec → List (String × String) → List Event
  | [], _ => []
  | f :: rest, acc =>
    if f.path = "" then
      fileBlocksLoop gen rest acc
    else
      let chunks := gen f.path acc
      let content := String.join chunks
      (Event.fileStart f.path :: chunks.map (Event.fileChunk f.path)
        ++ [Event.fileComplete f.path content])
      ++ fileBlocksLoop gen rest (acc ++ [(f.path, content)])

/-- Whether the two given events occur adjacently, in order, in the list. -/
def hasAdjacent (a b : Event) : List Event → Bool
  | [] => false
  | [_] => false
  | x :: y :: rest => (x = a && y = b) || hasAdjacent a b (y :: rest)

/-- Whether an optional inbound JSON field is falsy: absent or the empty
string. -/
def falsyField : Option String → Bool
  | none => true
  | some s => decide (s = "")

/-- Head of the websocket onMessage handler: goal validation, then the
model-API credential check, then the rest of the session pipeline
(classification onward), which is passed in as the event list it would
emit. -/
def onMessage (goal : Option String) (apiKey : Option String)
    (pipeline : List Event) : List Event :=
  if falsyField goal then
    [Event.error "Goal is required"]
  else if falsyField apiKey then
    [Event.error "DEEPSEEK_API_KEY not configured"]
  else
    pipeline

/-! ## Claims -/

/-- C1: SandboxTool.writeProjectFile resolves join(workspaceDir, projectName,
filePath) without any containment check, so the relative path ../escape.txt
normalizes to a location directly under the workspace root, outside the
project directory: the required stay-inside-the-project invariant fails. -/
theorem c1_writeProjectFile_escape :
    writeTargetSegs ["home", "monus", "sandbox_workspace"] "proj" "../escape.txt"
      = ["home", "monus", "sandbox_workspace", "escape.txt"]
    ∧ staysInProject ["home", "monus", "sandbox_workspace"] "proj"
        (writeTargetSegs ["home", "monus", "sandbox_workspace"] "proj" "../escape.txt")
      = false := by
  decide

/-- C4: when the model response fails JSON parsing (or any exception occurs),
Coder.analyzeTask returns the fixed 3-file fallback plan with project name
monus_project and files index.html, style.css, script.js in that order,
for every goal and every requested template. -/
theorem c4_analyzeTask_fallback (goal : String) (template : ProjectTemplate) :
    analyzeTask goal template none =
      { projectName := "monus_project",
        description := goal,
        files :=
          [{ path := "index.html", description := "主頁面" },
           { path := "style.css", description := "樣式" },
           { path := "script.js", description := "腳本" }],
        steps :=
          [{ step := 1, action := "create_file", file := "index.html", description := "建立主頁面" },
           { step := 2, action := "create_file", file := "style.css", description := "建立樣式" },
           { step := 3, action := "create_file", file := "script.js", description := "建立腳本" }] } :=
  rfl

/-- C3: a goal matching at least one implementation keyword and no information
keyword is classified as a code task with confidence min(1, codeScore/3),
independently of the LLM oracle. -/
theorem c3_classifier_code (oracle : Option LLMClassAnswer) (goal : String)
    (hc : 1 ≤ codeScoreOf goal) (hr : researchScoreOf goal = 0) :
    (classifyTask oracle goal).type = TaskType.code ∧
      (classifyTask oracle goal).confidence = min 1 ((codeScoreOf goal : ℚ) / 3) := by
  have h1 : ¬(codeScoreOf goal = 0 ∧ researchScoreOf goal = 0) := by omega
  have h2 : researchScoreOf goal < codeScoreOf goal := by omega
  rw [classifyTask, if_neg h1, if_pos h2]
  exact ⟨rfl, rfl⟩

/-- C3 witness: the goal "make a snake game" matches two implementation
keywords and no information keyword, and is classified as code with
confidence min(1, 2/3). -/
theorem c3_classifier_code_witness :
    (1 ≤ codeScoreOf "make a snake game" ∧ researchScoreOf "make a snake game" = 0) ∧
    (classifyTask none "make a snake game").type = TaskType.code ∧
      (classifyTask none "make a snake game").confidence
        = min 1 ((codeScoreOf "make a snake game" : ℚ) / 3) :=
  ⟨⟨by decide, by decide⟩, c3_classifier_code none "make a snake game" (by decide) (by decide)⟩

/-- C9: a goal whose two keyword scores are equal and non-zero is classified as
research with confidence min(1, researchScore/3) and no template, and the
result does not depend on the LLM oracle (the delegate fires only when both
scores are zero). -/
theorem c9_classifier_tie (o1 o2 : Option LLMClassAnswer) (goal : String)
    (heq : codeScoreOf goal = researchScoreOf goal) (hne : researchScoreOf goal ≠ 0) :
    classifyTask o1 goal = classifyTask o2 goal ∧
    (classifyTask o1 goal).type = TaskType.research ∧
    (classifyTask o1 goal).template = none ∧
    (classifyTask o1 goal).confidence = min 1 ((researchScoreOf goal : ℚ) / 3) := by
  have h1 : ¬(codeScoreOf goal = 0 ∧ researchScoreOf goal = 0) := by omega
  have h2 : ¬researchScoreOf goal < codeScoreOf goal := by omega
  rw [classifyTask, classifyTask, if_neg h1, if_neg h1, if_neg h2]
  exact ⟨rfl, rfl, rfl, rfl⟩

/-- C9 witness: the goal "make research" scores one on each keyword set and is
classified as research with confidence min(1, 1/3) and no template, for two
different oracle values. -/
theorem c9_classifier_tie_witness :
    (codeScoreOf "make research" = researchScoreOf "make research" ∧
      researchScoreOf "make research" ≠ 0) ∧
    classifyTask none "make research"
        = classifyTask (some { type := TaskType.code, template := none, reason := "r" })
            "make research" ∧
    (classifyTask none "make research").type = TaskType.research ∧
    (classifyTask none "make research").template = none ∧
    (classifyTask none "make research").confidence
      = min 1 ((researchScoreOf "make research" : ℚ) / 3) :=
  ⟨⟨by decide, by decide⟩,
   c9_classifier_tie none (some { type := TaskType.code, template := none, reason := "r" })
     "make research" (by decide) (by decide)⟩

/-- C6: SandboxTool.runCommand returns a structured CommandResult for every
rejected execAsync call, with success set to false and a non-zero code; a
timeout kill rejects without a numeric code and is reported as code 1, and
a non-zero exit is reported with that exit code. -/
theorem c6_runCommand_failure (projectExists : Bool) (command : String)
    (timeoutMs : Nat) (code : Option Int) (out err : Option String) (msg : String)
    (h : code ≠ some 0) :
    (runCommand projectExists command timeoutMs
        (ExecOutcome.failed code out err msg)).success = false ∧
    (runCommand projectExists command timeoutMs
        (ExecOutcome.failed code out err msg)).code ≠ 0 := by
  cases projectExists with
  | false => exact ⟨rfl, by simp [runCommand]⟩
  | true =>
    cases code with
    | none => exact ⟨rfl, by simp [runCommand]⟩
    | some k =>
      have hk : k ≠ 0 := fun hk0 => h (by rw [hk0])
      exact ⟨rfl, by simpa [runCommand] using hk⟩

/-- C6 witness: a command killed by its timeout rejects without a numeric exit
code and is reported as a structured failure with code 1. -/
theorem c6_runCommand_failure_witness :
    (runCommand true "sleep 100" 50
        (ExecOutcome.failed none (some "") (some "") "timeout")).success = false ∧
    (runCommand true "sleep 100" 50
        (ExecOutcome.failed none (some "") (some "") "timeout")).code ≠ 0 :=
  c6_runCommand_failure true "sleep 100" 50 none (some "") (some "") "timeout" (by decide)

/-- C8: the websocket onMessage handler emits exactly the error event
"Goal is required" when the goal field is missing or empty, and exactly
"DEEPSEEK_API_KEY not configured" when the goal is present but the model-API
credential is not; in both cases no classification event is emitted and the
pipeline is not entered. -/
theorem c8_onMessage_validation (goal apiKey : Option String) (pipeline : List Event) :
    (falsyField goal = true →
      onMessage goal apiKey pipeline = [Event.error "Goal is required"] ∧
      "classification" ∉ (onMessage goal apiKey pipeline).map eventType) ∧
    (falsyField goal = false → falsyField apiKey = true →
      onMessage goal apiKey pipeline = [Event.error "DEEPSEEK_API_KEY not configured"] ∧
      "classification" ∉ (onMessage goal apiKey pipeline).map eventType) := by
  constructor
  · intro hg
    rw [onMessage, if_pos hg]
    exact ⟨rfl, by simp [eventType]⟩
  · intro hg hk
    rw [onMessage, if_neg (by simp [hg]), if_pos hk]
    exact ⟨rfl, by simp [eventType]⟩

/-- C8 witness: a start message without a goal is answered by exactly the
"Goal is required" error, and one with a goal but no configured credential
by exactly the "DEEPSEEK_API_KEY not configured" error. -/
theorem c8_onMessage_validation_witness :
    onMessage none (some "sk-key") [Event.classification "code"]
      = [Event.error "Goal is required"] ∧
    onMessage (some "build a game") none [Event.classification "code"]
      = [Event.error "DEEPSEEK_API_KEY not configured"] :=
  ⟨((c8_onMessage_validation none (some "sk-key") [Event.classification "code"]).1
      (by decide)).1,
   ((c8_onMessage_validation (some "build a game") none [Event.classification "code"]).2
      (by decide) (by decide)).1⟩

/-- Writing a list of files through the workspace at a fixed project evaluates,
at that project, to the corresponding fold over its directory. -/
theorem foldl_writeFileFS_at (name : String) (l : List (String × String)) :
    ∀ (ws : WorkspaceFS) (d : Dir), ws name = some d →
      (l.foldl (fun w pc => writeFileFS w name pc.1 pc.2) ws) name
        = some (l.foldl (fun dd pc => upsertFile dd pc.1 pc.2) d) := by
  induction l with
  | nil => intro ws d h; simpa using h
  | cons pc rest ih =>
    intro ws d h
    simp only [List.foldl_cons]
    exact ih _ _ (by simp [writeFileFS, h])

/-- Folding the boilerplate writes of a template into an empty directory
produces exactly the boilerplate listing. -/
theorem templateFiles_fold (name : String) (t : ProjectTemplate) :
    (templateFiles name t).foldl (fun dd pc => upsertFile dd pc.1 pc.2) []
      = templateFiles name t := by
  cases t <;> rfl

/-- initProject leaves the named project directory holding exactly the template
boilerplate, whatever was there before. -/
theorem initProject_fresh (ws : WorkspaceFS) (name : String) (t : ProjectTemplate) :
    initProject ws name t name = some (templateFiles name t) := by
  have hmk : (mkdirpProject (if (ws name).isSome then rimrafProject ws name else ws) name) name
      = some [] := by
    by_cases h : (ws name).isSome
    · simp [mkdirpProject, rimrafProject, h]
    · simp [mkdirpProject, Option.not_isSome_iff_eq_none.mp h, h]
  simp only [initProject]
  rw [foldl_writeFileFS_at name (templateFiles name t) _ [] hmk, templateFiles_fold]

/-- C7: initProject destroys and recreates an existing project directory: after
a first initProject, any sequence of writeProjectFile writes into that
project, and a second initProject with the same name, the directory holds
exactly the fresh template boilerplate, so every file written between the
two calls is discarded; the first call likewise leaves only template files. -/
theorem c7_initProject_destroys (ws : WorkspaceFS) (name : String)
    (t1 t2 : ProjectTemplate) (writes : List (String × String)) :
    initProject
        (writes.foldl (fun w pc => writeProjectFile w name pc.1 pc.2)
          (initProject ws name t1)) name t2 name
      = some (templateFiles name t2) ∧
    initProject ws name t1 name = some (templateFiles name t1) :=
  ⟨initProject_fresh _ name t2, initProject_fresh ws name t1⟩

/-- Adjacency of a pair of events is preserved by extending the list on the
right. -/
theorem hasAdjacent_append_left (a b : Event) :
    ∀ (l1 l2 : List Event), hasAdjacent a b l1 = true →
      hasAdjacent a b (l1 ++ l2) = true
  | [], _, h => by simp [hasAdjacent] at h
  | [_], _, h => by simp [hasAdjacent] at h
  | x :: y :: rest, l2, h => by
    simp only [hasAdjacent, Bool.or_eq_true] at h
    rcases h with h | h
    · simp [List.cons_append, hasAdjacent, h]
    · have ih := hasAdjacent_append_left a b (y :: rest) l2 h
      simp only [List.cons_append] at ih ⊢
      simp [hasAdjacent, ih]

/-- Adjacency of a pair of events is preserved by extending the list on the
left. -/
theorem hasAdjacent_append_right (a b : Event) :
    ∀ (l1 l2 : List Event), hasAdjacent a b l2 = true →
      hasAdjacent a b (l1 ++ l2) = true
  | [], _, h => by simpa using h
  | x :: l1, l2, h => by
    have hne : l1 ++ l2 ≠ [] := by
      intro hnil
      rcases List.append_eq_nil.mp hnil with ⟨h1, h2⟩
      subst h2
      simp [hasAdjacent] at h
    obtain ⟨y, rest, hyr⟩ := List.exists_cons_of_ne_nil hne
    have ih := hasAdjacent_append_right a b l1 l2 h
    rw [List.cons_append, hyr]
    rw [hyr] at ih
    simp [hasAdjacent, ih]

/-- The writing loop emits, for the file at offset i of the remaining list with
loop index starting at j, the file_start event immediately followed by the
progress milestone computed from overall index j + i. -/
theorem writeLoop_progress_adjacent (gen : GenOracle) (total : Nat) :
    ∀ (l : List FileSpec) (j : Nat) (acc : List (String × String)) (i : Nat) (f : FileSpec),
      l.get? i = some f → f.path ≠ "" →
      hasAdjacent (Event.fileStart f.path)
        (Event.progress (10 + ((j + i + 1) * 80) / total))
        (writeLoop gen total j l acc).1 = true
  | [], _, _, i, _, h, _ => by simp at h
  | g :: rest, j, acc, 0, f, h, hp => by
    rw [List.get?_cons_zero] at h
    injection h with h
    subst h
    simp only [writeLoop, if_neg hp]
    apply hasAdjacent_append_left
    simp [fileBlock, hasAdjacent]
  | g :: rest, j, acc, i + 1, f, h, hp => by
    rw [List.get?_cons_succ] at h
    have harith : j + 1 + i + 1 = j + (i + 1) + 1 := by omega
    by_cases hg : g.path = ""
    · have ih := writeLoop_progress_adjacent gen total rest (j + 1) acc i f h hp
      rw [harith] at ih
      simpa [writeLoop, hg] using ih
    · simp only [writeLoop, if_neg hg]
      apply hasAdjacent_append_right
      have ih := writeLoop_progress_adjacent gen total rest (j + 1)
        (acc ++ [(g.path, String.join (gen g.path acc))]) i f h hp
      rwa [harith] at ih

/-- C2: in the event stream of a code session, the file at 0-based position i
of the plan (when its path is non-empty) gets a file_start immediately
followed by a progress event whose value is 10 + floor(((i+1)/total)*80),
where total is the number of planned files. -/
theorem c2_progress_formula (gen : GenOracle) (plan : ProjectPlan) (i : Nat)
    (f : FileSpec) (hi : plan.files.get? i = some f) (hp : f.path ≠ "") :
    hasAdjacent (Event.fileStart f.path)
      (Event.progress (10 + ((i + 1) * 80) / plan.files.length))
      (runCodeGeneration gen plan) = true := by
  rw [runCodeGeneration]
  apply hasAdjacent_append_left
  apply hasAdjacent_append_right
  have h := writeLoop_progress_adjacent gen plan.files.length plan.files 0 [] i f hi hp
  simpa using h

/-- C2 witness: for a concrete 5-file plan, the third file gets its file_start
immediately followed by the progress value 58 = 10 + floor((3/5)*80). -/
theorem c2_progress_formula_witness :
    hasAdjacent (Event.fileStart "script.js") (Event.progress 58)
      (runCodeGeneration (fun p _ => [p ++ " content"])
        { projectName := "demo_app", description := "demo",
          files :=
            [{ path := "index.html", description := "page" },
             { path := "style.css", description := "styles" },
             { path := "script.js", description := "logic" },
             { path := "util.js", description := "helpers" },
             { path := "README.md", description := "docs" }],
          steps := [] }) = true :=
  c2_progress_formula (fun p _ => [p ++ " content"])
    { projectName := "demo_app", description := "demo",
      files :=
        [{ path := "index.html", description := "page" },
         { path := "style.css", description := "styles" },
         { path := "script.js", description := "logic" },
         { path := "util.js", description := "helpers" },
         { path := "README.md", description := "docs" }],
      steps := [] }
    2 { path := "script.js", description := "logic" } rfl (by decide)

/-- Filtering the per-file events out of a run of file_chunk events keeps all
of them. -/
theorem filter_chunkEvents (p : String) (cs : List String) :
    (cs.map (Event.fileChunk p)).filter isFileEvent = cs.map (Event.fileChunk p) := by
  induction cs with
  | nil => rfl
  | cons c cs ih => simp [isFileEvent, ih]

/-- The per-file events emitted by the writing loop are exactly the expected
blocks, in plan order. -/
theorem writeLoop_filter (gen : GenOracle) (total : Nat) :
    ∀ (l : List FileSpec) (j : Nat) (acc : List (String × String)),
      ((writeLoop gen total j l acc).1).filter isFileEvent = fileBlocksLoop gen l acc
  | [], _, _ => rfl
  | f :: rest, j, acc => by
    by_cases hp : f.path = ""
    · simp only [writeLoop, fileBlocksLoop, if_pos hp]
      exact writeLoop_filter gen total rest (j + 1) acc
    · simp only [writeLoop, fileBlocksLoop, if_neg hp]
      rw [List.filter_append]
      rw [writeLoop_filter gen total rest (j + 1) (acc ++ [(f.path, String.join (gen f.path acc))])]
      simp [fileBlock, isFileEvent, filter_chunkEvents]

/-- No file_chunk event counts as a file_complete for any file. -/
theorem countP_chunk_complete (g p : String) (cs : List String) :
    (cs.map (Event.fileChunk p)).countP (isCompleteFor g) = 0 := by
  induction cs with
  | nil => rfl
  | cons c cs ih => simp [List.countP_cons, isCompleteFor, ih]

/-- A list with no events satisfying the first predicate dominates it by any
other count, prefix by prefix. -/
theorem take_count_le_of_zero {α : Type} (p q : α → Bool) (l : List α)
    (hp : l.countP p = 0) (n : Nat) :
    (l.take n).countP p ≤ (l.take n).countP q := by
  have h := (List.take_sublist n l).countP_le p
  omega

/-- Prefix-count domination is preserved by appending two lists that each
satisfy it. -/
theorem countP_take_le_of_append {α : Type} (p q : α → Bool) (l1 l2 : List α)
    (h1 : ∀ n, (l1.take n).countP p ≤ (l1.take n).countP q)
    (h2 : ∀ n, (l2.take n).countP p ≤ (l2.take n).countP q) (n : Nat) :
    ((l1 ++ l2).take n).countP p ≤ ((l1 ++ l2).take n).countP q := by
  rw [List.take_append_eq_append_take, List.countP_append, List.countP_append]
  exact Nat.add_le_add (h1 n) (h2 (n - l1.length))

/-- Within one emitted file block, every prefix has at least as many
file_start events as file_complete events for every file. -/
theorem fileBlock_take_count (gen : GenOracle) (total j : Nat) (f : FileSpec)
    (acc : List (String × String)) (g : String) (n : Nat) :
    ((fileBlock gen total j f acc).take n).countP (isCompleteFor g)
      ≤ ((fileBlock gen total j f acc).take n).countP (isStartFor g) := by
  have hb : fileBlock gen total j f acc
      = Event.fileStart f.path ::
        ([Event.progress (10 + ((j + 1) * 80) / total),
          Event.step ("Generating " ++ f.path) "running"]
          ++ (gen f.path acc).map (Event.fileChunk f.path)
          ++ [Event.fileComplete f.path (String.join (gen f.path acc)),
              Event.step ("Generated " ++ f.path) "done"]) := by
    simp [fileBlock]
  cases n with
  | zero => simp
  | succ m =>
    rw [hb, List.take_succ_cons, List.countP_cons, List.countP_cons]
    have h1 := (List.take_sublist m
      ([Event.progress (10 + ((j + 1) * 80) / total),
        Event.step ("Generating " ++ f.path) "running"]
        ++ (gen f.path acc).map (Event.fileChunk f.path)
        ++ [Event.fileComplete f.path (String.join (gen f.path acc)),
            Event.step ("Generated " ++ f.path) "done"])).countP_le (isCompleteFor g)
    have hc0 : isCompleteFor g (Event.fileStart f.path) = false := rfl
    by_cases hfg : f.path = g
    · subst hfg
      have h2 : ([Event.progress (10 + ((j + 1) * 80) / total),
          Event.step ("Generating " ++ f.path) "running"]
          ++ (gen f.path acc).map (Event.fileChunk f.path)
          ++ [Event.fileComplete f.path (String.join (gen f.path acc)),
              Event.step ("Generated " ++ f.path) "done"]).countP (isCompleteFor f.path) = 1 := by
        simp [List.countP_append, List.countP_cons, isCompleteFor, countP_chunk_complete]
      have hs1 : isStartFor f.path (Event.fileStart f.path) = true := by simp [isStartFor]
      rw [hc0, hs1, if_neg Bool.false_ne_true, if_pos rfl]
      omega
    · have h2 : ([Event.progress (10 + ((j + 1) * 80) / total),
          Event.step ("Generating " ++ f.path) "running"]
          ++ (gen f.path acc).map (Event.fileChunk f.path)
          ++ [Event.fileComplete f.path (String.join (gen f.path acc)),
              Event.step ("Generated " ++ f.path) "done"]).countP (isCompleteFor g) = 0 := by
        simp [List.countP_append, List.countP_cons, isCompleteFor, countP_chunk_complete, hfg]
      have hs0 : isStartFor g (Event.fileStart f.path) = false := by
        simp [isStartFor, hfg]
      rw [hc0, hs0, if_neg Bool.false_ne_true]
      omega

/-- Every prefix of the writing loop events has at least as many file_start as
file_complete events for every file. -/
theorem writeLoop_take_count (gen : GenOracle) (total : Nat) :
    ∀ (l : List FileSpec) (j : Nat) (acc : List (String × String)) (g : String) (n : Nat),
      (((writeLoop gen total j l acc).1).take n).countP (isCompleteFor g)
        ≤ (((writeLoop gen total j l acc).1).take n).countP (isStartFor g)
  | [], _, _, _, _ => by simp [writeLoop]
  | f :: rest, j, acc, g, n => by
    by_cases hp : f.path = ""
    · simp only [writeLoop, if_pos hp]
      exact writeLoop_take_count gen total rest (j + 1) acc g n
    · simp only [writeLoop, if_neg hp]
      exact countP_take_le_of_append _ _ _ _
        (fileBlock_take_count gen total j f acc g)
        (fun m => writeLoop_take_count gen total rest (j + 1)
          (acc ++ [(f.path, String.join (gen f.path acc))]) g m) n

/-- C5: the event stream of a code session is strictly ordered per file: the
per-file events are exactly, in plan order, a file_start, then that file's
file_chunk events, then its file_complete with the accumulated content,
before the next file's block; moreover, in every prefix of the stream, no
file has more file_complete than file_start events, so a file_complete never
precedes its matching file_start. -/
theorem c5_event_ordering (gen : GenOracle) (plan : ProjectPlan) :
    (runCodeGeneration gen plan).filter isFileEvent = fileBlocksLoop gen plan.files [] ∧
    ∀ (g : String) (n : Nat),
      (((runCodeGeneration gen plan).take n)).countP (isCompleteFor g)
        ≤ (((runCodeGeneration gen plan).take n)).countP (isStartFor g) := by
  constructor
  · rw [runCodeGeneration]
    rw [List.filter_append, List.filter_append]
    rw [writeLoop_filter gen plan.files.length plan.files 0 []]
    simp [isFileEvent]
  · intro g n
    rw [runCodeGeneration]
    apply countP_take_le_of_append
    · apply countP_take_le_of_append
      · apply take_count_le_of_zero
        simp [List.countP_cons, isCompleteFor]
      · exact fun m => writeLoop_take_count gen plan.files.length plan.files 0 [] g m
    · apply take_count_le_of_zero
      simp [List.countP_cons, isCompleteFor]

/-- Every event of one emitted file block is either not a per-file event or is
about that block's file. -/
theorem eventPath_mem_fileBlock (gen : GenOracle) (total j : Nat) (f : FileSpec)
    (acc : List (String × String)) :
    ∀ e ∈ fileBlock gen total j f acc, eventPath e = none ∨ eventPath e = some f.path := by
  intro e he
  simp only [fileBlock, List.mem_append, List.mem_cons, List.mem_map,
    List.mem_singleton, List.not_mem_nil, or_false] at he
  rcases he with ((rfl | rfl | rfl) | ⟨c, -, rfl⟩) | (rfl | rfl) <;> simp [eventPath]

/-- The writing loop never emits a per-file event for the empty path: a
FileSpec with an empty path is skipped before file_start. -/
theorem writeLoop_no_empty_path (gen : GenOracle) (total : Nat) :
    ∀ (l : List FileSpec) (j : Nat) (acc : List (String × String)),
      ∀ e ∈ (writeLoop gen total j l acc).1, eventPath e ≠ some ""
  | [], _, _ => by simp [writeLoop]
  | f :: rest, j, acc => by
    intro e he
    by_cases hp : f.path = ""
    · rw [writeLoop, if_pos hp] at he
      exact writeLoop_no_empty_path gen total rest (j + 1) acc e he
    · rw [writeLoop, if_neg hp] at he
      simp only [List.mem_append] at he
      rcases he with he | he
      · rcases eventPath_mem_fileBlock gen total j f acc e he with h | h
        · simp [h]
        · rw [h]
          intro hcontra
          injection hcontra with hcontra
          exact hp hcontra
      · exact writeLoop_no_empty_path gen total rest (j + 1)
          (acc ++ [(f.path, String.join (gen f.path acc))]) e he

/-- Every entry of the final existingFiles map either was already accumulated
or has a non-empty path: nothing is written for a skipped FileSpec. -/
theorem writeLoop_written_keys (gen : GenOracle) (total : Nat) :
    ∀ (l : List FileSpec) (j : Nat) (acc : List (String × String)),
      ∀ pc ∈ (writeLoop gen total j l acc).2, pc ∈ acc ∨ pc.1 ≠ ""
  | [], _, _ => fun _ h => Or.inl h
  | f :: rest, j, acc => by
    intro pc hpc
    by_cases hp : f.path = ""
    · rw [writeLoop, if_pos hp] at hpc
      exact writeLoop_written_keys gen total rest (j + 1) acc pc hpc
    · rw [writeLoop, if_neg hp] at hpc
      rcases writeLoop_written_keys gen total rest (j + 1)
          (acc ++ [(f.path, String.join (gen f.path acc))]) pc hpc with h | h
      · simp only [List.mem_append, List.mem_singleton] at h
        rcases h with h | h
        · exact Or.inl h
        · subst h
          exact Or.inr hp
      · exact Or.inr h

/-- Every progress event of the writing loop comes from a planned file with a
non-empty path, with the milestone formula at that file's overall index. -/
theorem writeLoop_progress_values (gen : GenOracle) (total : Nat) :
    ∀ (l : List FileSpec) (j : Nat) (acc : List (String × String)) (v : Nat),
      Event.progress v ∈ (writeLoop gen total j l acc).1 →
      ∃ k f, l.get? k = some f ∧ f.path ≠ "" ∧ v = 10 + ((j + k + 1) * 80) / total
  | [], _, _, _ => by simp [writeLoop]
  | f :: rest, j, acc, v => by
    intro hv
    by_cases hp : f.path = ""
    · rw [writeLoop, if_pos hp] at hv
      obtain ⟨k, g, hk, hg, hval⟩ := writeLoop_progress_values gen total rest (j + 1) acc v hv
      refine ⟨k + 1, g, by simpa using hk, hg, ?_⟩
      have harith : j + 1 + k + 1 = j + (k + 1) + 1 := by omega
      rwa [harith] at hval
    · rw [writeLoop, if_neg hp] at hv
      simp only [List.mem_append] at hv
      rcases hv with hv | hv
      · simp only [fileBlock, List.mem_append, List.mem_cons, List.mem_map,
          List.mem_singleton, List.not_mem_nil, or_false] at hv
        simp at hv
        exact ⟨0, f, rfl, hp, by simpa using hv⟩
      · obtain ⟨k, g, hk, hg, hval⟩ := writeLoop_progress_values gen total rest (j + 1)
          (acc ++ [(f.path, String.join (gen f.path acc))]) v hv
        refine ⟨k + 1, g, by simpa using hk, hg, ?_⟩
        have harith : j + 1 + k + 1 = j + (k + 1) + 1 := by omega
        rwa [harith] at hval

/-- C10: a FileSpec of the plan whose path is empty is silently skipped by the
writing phase: no file_start, file_chunk or file_complete event names the
empty path, nothing is written through the sandbox for it, and every
progress event of the session is either a fixed milestone (5, 10, 100) or
the per-file milestone of a planned file with a non-empty path computed
against the full plan length, which still counts the skipped entry. -/
theorem c10_empty_path_skipped (gen : GenOracle) (plan : ProjectPlan) (i : Nat)
    (f : FileSpec) (hi : plan.files.get? i = some f) (hp : f.path = "") :
    some "" ∉ (runCodeGeneration gen plan).map eventPath ∧
    "" ∉ (writtenFiles gen plan).map Prod.fst ∧
    ∀ v, Event.progress v ∈ runCodeGeneration gen plan →
      v = 5 ∨ v = 10 ∨ v = 100 ∨
      ∃ k g, plan.files.get? k = some g ∧ g.path ≠ "" ∧
        v = 10 + ((k + 1) * 80) / plan.files.length := by
  refine ⟨?_, ?_, ?_⟩
  · intro hmem
    rw [List.mem_map] at hmem
    obtain ⟨e, he, hpath⟩ := hmem
    rw [runCodeGeneration] at he
    simp only [List.mem_append] at he
    rcases he with (he | he) | he
    · simp only [List.mem_cons, List.not_mem_nil, or_false] at he
      rcases he with rfl | rfl | rfl | rfl | rfl | rfl <;> simp [eventPath] at hpath
    · exact writeLoop_no_empty_path gen plan.files.length plan.files 0 [] e he hpath
    · simp only [List.mem_cons, List.not_mem_nil, or_false] at he
      rcases he with rfl | rfl | rfl <;> simp [eventPath] at hpath
  · intro hmem
    rw [List.mem_map] at hmem
    obtain ⟨pc, hpc, hfst⟩ := hmem
    rw [writtenFiles] at hpc
    rcases writeLoop_written_keys gen plan.files.length plan.files 0 [] pc hpc with h | h
    · simp at h
    · exact h hfst
  · intro v hv
    rw [runCodeGeneration] at hv
    simp only [List.mem_append] at hv
    rcases hv with (hv | hv) | hv
    · simp at hv
      rcases hv with rfl | rfl
      · exact Or.inl rfl
      · exact Or.inr (Or.inl rfl)
    · obtain ⟨k, g, hk, hg, hval⟩ :=
        writeLoop_progress_values gen plan.files.length plan.files 0 [] v hv
      exact Or.inr (Or.inr (Or.inr ⟨k, g, hk, hg, by simpa using hval⟩))
    · simp at hv
      subst hv
      exact Or.inr (Or.inr (Or.inl rfl))

/-- C10 witness: in a concrete 3-file plan whose second FileSpec has an empty
path, the session stream has no per-file event for the empty path and the
sandbox receives no write for it. -/
theorem c10_empty_path_skipped_witness :
    some "" ∉ (runCodeGeneration (fun p _ => [p ++ "!"])
        { projectName := "demo_site", description := "demo",
          files :=
            [{ path := "index.html", description := "page" },
             { path := "", description := "skipped" },
             { path := "app.js", description := "logic" }],
          steps := [] }).map eventPath ∧
    "" ∉ (writtenFiles (fun p _ => [p ++ "!"])
        { projectName := "demo_site", description := "demo",
          files :=
            [{ path := "index.html", description := "page" },
             { path := "", description := "skipped" },
             { path := "app.js", description := "logic" }],
          steps := [] }).map Prod.fst :=
  ⟨(c10_empty_path_skipped (fun p _ => [p ++ "!"])
      { projectName := "demo_site", description := "demo",
        files :=
          [{ path := "index.html", description := "page" },
           { path := "", description := "skipped" },
           { path := "app.js", description := "logic" }],
        steps := [] } 1 { path := "", description := "skipped" } rfl rfl).1,
   (c10_empty_path_skipped (fun p _ => [p ++ "!"])
      { projectName := "demo_site", description := "demo",
        files :=
          [{ path := "index.html", description := "page" },
           { path := "", description := "skipped" },
           { path := "app.js", description := "logic" }],
        steps := [] } 1 { path := "", description := "skipped" } rfl rfl).2.1⟩

end Monus
